import Mathlib

/-
Verification development for the Piton de la Fournaise seismic dashboard
(repository Emmcar974/Dashboard-volcano).

Shallow embedding conventions:
* timestamps are integer seconds since the Unix epoch (plain `Int`);
  the six eruption instants of `src/dashboard_v2/app.py` are embedded as
  their exact epoch values;
* a CSV row is a `RawRow`; the string `station` column is kept, and two
  representative numeric columns (`amplitude_mean`, `amplitude_std`) stand
  for the numeric feature columns that pandas averages uniformly;
* a possibly-NaN float cell is `Option ℚ` (`none` = NaN); pandas `mean`
  and `max` skip NaN, and every Python `NaN > c` comparison is `False`;
* pandas `resample("10min").mean(numeric_only=True)` labels each bucket by
  its left edge (a multiple of 600 seconds, since the bin origin is the
  midnight of the first day and 600 divides 86400), emits one row per
  10-minute bucket from the first to the last occupied bucket (empty
  buckets giving NaN means), and drops non-numeric columns.
-/

namespace Volcano

/-- One row of an eruption's per-minute CSV as loaded by the dashboards:
a timestamp, a station identifier, and numeric feature columns
(two representative ones; pandas treats all numeric columns alike). -/
structure RawRow where
  time_min : Int
  station : String
  amplitude_mean : Option ℚ
  amplitude_std : Option ℚ
  deriving Repr, DecidableEq

/-- The six eruptions of the `eruptions` dict in `src/dashboard_v2/app.py`. -/
inductive EruptionId where
  | e2015aug24
  | e2016sep11
  | e2019oct25
  | e2020dec07
  | e2022sep19
  | e2023jul02
  deriving Repr, DecidableEq, Inhabited

/-- Eruption instants (`eruptions[name]["time"]`), as epoch seconds:
2015-08-24 16:50, 2016-09-11 04:05, 2019-10-25 12:40, 2020-12-07 00:40,
2022-09-19 06:23, 2023-07-02 04:30 (all UTC). -/
def eruptionTime : EruptionId → Int
  | .e2015aug24 => 1440435000
  | .e2016sep11 => 1473566700
  | .e2019oct25 => 1572007200
  | .e2020dec07 => 1607301600
  | .e2022sep19 => 1663568580
  | .e2023jul02 => 1688272200

/-- Backing file names (`eruptions[name]["file"]`). -/
def eruptionFile : EruptionId → String
  | .e2015aug24 => "2015_08_24_19h_50_UTC_pf_aggregated_1min_1Hz.csv"
  | .e2016sep11 => "2016_09_11_06h_41_UTC_pf_aggregated_1min_1Hz.csv"
  | .e2019oct25 => "2019_10_25_12h_40_UTC_pf_aggregated_1min_1Hz.csv"
  | .e2020dec07 => "2020_12_07_02h_40_UTC_pf_aggregated_1min_1Hz.csv"
  | .e2022sep19 => "2022_09_19_06h_23_UTC_pf_aggregated_1min_1Hz.csv"
  | .e2023jul02 => "2023_07_02_04h_30_UTC_pf_aggregated_1min_1Hz.csv"

/-- Display keys of the `eruptions` dict (used in warning messages). -/
def eruptionName : EruptionId → String
  | .e2015aug24 => "24 Aug 2015 – 16:50 UTC"
  | .e2016sep11 => "11 Sep 2016 – 04:05 UTC"
  | .e2019oct25 => "25 Oct 2019 – 12:40 UTC"
  | .e2020dec07 => "07 Dec 2020 – 00:40 UTC"
  | .e2022sep19 => "19 Sep 2022 – 06:23 UTC"
  | .e2023jul02 => "02 Jul 2023 – 04:30 UTC"

/-- The fixed `color_map` of `src/dashboard_v2/app.py`. -/
def color_map : EruptionId → String
  | .e2015aug24 => "#e6194B"
  | .e2016sep11 => "#f58231"
  | .e2019oct25 => "#3cb44b"
  | .e2020dec07 => "#42d4f4"
  | .e2022sep19 => "#4363d8"
  | .e2023jul02 => "#911eb4"

/-- Python `x > c` where `x` may be NaN (`none`): every comparison against
NaN is `False`, so a NaN input falls through every threshold test. -/
def gtq : Option ℚ → ℚ → Bool
  | none, _ => false
  | some v, c => decide (c < v)

/-- The alert-level threshold chain of `src/dashboard_v2/app.py`
(lines 75–84): `(level, color, emoji)` from the latest RSAM scalar. -/
def alertTriple (latest_rsam : Option ℚ) : String × String × String :=
  if gtq latest_rsam 5000 then ("ERUPTION", "#9f00e0", "🟪")
  else if gtq latest_rsam 3000 then ("IMMINENT (<1h)", "#e60000", "🔴")
  else if gtq latest_rsam 1500 then ("HIGH (<12h)", "#ff6600", "🟠")
  else if gtq latest_rsam 800 then ("ELEVATED (<48h)", "#ffd700", "🟡")
  else ("NORMAL", "#00b300", "🟢")

/-- The risk threshold chain of `src/app.py` (lines 74–83):
`(risk_text, risk_color, risk_emoji)` from the maximal amplitude std. -/
def riskTriple (max_std : Option ℚ) : String × String × String :=
  if gtq max_std 100000 then ("Éruption en cours", "purple", "🟪")
  else if gtq max_std 30000 then ("Risque < 1h", "red", "🔴")
  else if gtq max_std 10000 then ("Risque < 12h", "orange", "🟠")
  else if gtq max_std 3000 then ("Risque < 24h", "goldenrod", "🟡")
  else ("Pas de risque", "green", "🟢")

/-- Severity rank of the five alert labels of `src/dashboard_v2/app.py`,
lowest (NORMAL) to highest (ERUPTION). -/
def severity (lvl : String) : ℕ :=
  if lvl = "NORMAL" then 0
  else if lvl = "ELEVATED (<48h)" then 1
  else if lvl = "HIGH (<12h)" then 2
  else if lvl = "IMMINENT (<1h)" then 3
  else 4

/-- Severity of the tier selected by the threshold chain, computed
directly from the input scalar. -/
def alertRank (x : Option ℚ) : ℕ :=
  if gtq x 5000 then 4
  else if gtq x 3000 then 3
  else if gtq x 1500 then 2
  else if gtq x 800 then 1
  else 0

/-! ## The alignment routine (`load_aligned_selected`)

`src/dashboard_v2/app.py` lines 203–241 and `src/Dashboard/app.py`
lines 114–148. -/

/-- Left edge of the 10-minute bucket containing `t` (the label pandas
`resample("10min")` assigns to `t`'s bin). -/
def bucketStart (t : Int) : Int := t - t % 600

/-- `(df["time_min"] - info["time"]).dt.total_seconds() / 3600`. -/
def hoursTo (E t : Int) : ℚ := ((t - E : Int) : ℚ) / 3600

/-- One row of the combined aligned table.  `resample(...).mean(numeric_only
=True)` keeps only the numeric feature columns — there is no station column.
`ι` is the eruption-identifier type (`EruptionId` for `dashboard_v2`,
plain strings for the `Dashboard` variant). -/
structure AlignedRow (ι : Type) where
  time_min : Int
  amplitude_mean : Option ℚ
  amplitude_std : Option ℚ
  hours_to_eruption : ℚ
  eruption : ι
  color : String
  deriving Repr, DecidableEq, Inhabited

/-- Minimum of the datetime index (`none` on an empty frame). -/
def minTimeList : List RawRow → Option Int
  | [] => none
  | r :: rs => some (rs.foldl (fun m x => min m x.time_min) r.time_min)

/-- Maximum of the datetime index (`none` on an empty frame). -/
def maxTimeList : List RawRow → Option Int
  | [] => none
  | r :: rs => some (rs.foldl (fun m x => max m x.time_min) r.time_min)

/-- pandas mean with `skipna` (the argument list holds the non-NaN cells
of the bucket): NaN (= `none`) when no value is present. -/
def listMean : List ℚ → Option ℚ
  | [] => none
  | x :: xs => some ((x :: xs).sum / ((x :: xs).length : ℚ))

/-- Mean over one bucket of one numeric column, skipping NaN cells. -/
def bucketMean (df : List RawRow) (label : Int) (proj : RawRow → Option ℚ) :
    Option ℚ :=
  listMean ((df.filter (fun r => decide (bucketStart r.time_min = label))).filterMap proj)

/-- The labels `resample("10min")` produces: every 600-second step from the
first occupied bucket `b0` to the last occupied bucket `b1`. -/
def resampleLabels (b0 b1 : Int) : List Int :=
  (List.range (((b1 - b0) / 600).toNat + 1)).map (fun i : Nat => b0 + 600 * (i : Int))

/-- `df.set_index("time_min").resample("10min").mean(numeric_only=True)
.reset_index()` followed by recomputing `hours_to_eruption` from the output
`time_min` and attaching the eruption identifier and its color. -/
def resample10 {ι : Type} (E : Int) (eid : ι) (col : String)
    (df : List RawRow) : List (AlignedRow ι) :=
  match minTimeList df, maxTimeList df with
  | some mn, some mx =>
    (resampleLabels (bucketStart mn) (bucketStart mx)).map (fun label =>
      { time_min := label
        amplitude_mean := bucketMean df label (fun r => r.amplitude_mean)
        amplitude_std := bucketMean df label (fun r => r.amplitude_std)
        hours_to_eruption := hoursTo E label
        eruption := eid
        color := col })
  | _, _ => []

/-- The coarse time-window filter: `start_time ≤ time_min ≤ end_time` with
`start_time = info["time"] - 82h` and `end_time = info["time"] + 24h`. -/
def windowFilter (E : Int) (df : List RawRow) : List RawRow :=
  df.filter (fun r =>
    decide (E - 82 * 3600 ≤ r.time_min) && decide (r.time_min ≤ E + 24 * 3600))

/-- The tight filter `-80 ≤ hours_to_eruption ≤ 24`. -/
def hoursFilter (E : Int) (df : List RawRow) : List RawRow :=
  df.filter (fun r =>
    decide ((-80 : ℚ) ≤ hoursTo E r.time_min) && decide (hoursTo E r.time_min ≤ 24))

/-- One iteration of the loop in `load_aligned_selected` of
`src/dashboard_v2/app.py`: skip with a warning when the backing file is
missing (`env name = none` models `not path.exists()`), skip with a warning
when the coarse window is empty, otherwise filter, resample and tag.
`env` abstracts `pd.read_csv` + `preprocess_data` (the `preprocess_seismic`
module is not among the sources; its output is the routine's input). -/
def processOne (env : EruptionId → Option (List RawRow)) (name : EruptionId) :
    List (AlignedRow EruptionId) × List String :=
  match env name with
  | none => ([], ["File not found: " ++ eruptionFile name])
  | some df0 =>
    let E := eruptionTime name
    let df1 := windowFilter E df0
    if df1 = [] then ([], ["No data in window for " ++ eruptionName name])
    else (resample10 E name (color_map name) (hoursFilter E df1), [])

/-- `load_aligned_selected` of `src/dashboard_v2/app.py`: concatenation of
the per-eruption frames, in selection order, plus the warnings shown. -/
def load_aligned_selected (env : EruptionId → Option (List RawRow)) :
    List EruptionId → List (AlignedRow EruptionId) × List String
  | [] => ([], [])
  | name :: rest =>
    let p := processOne env name
    let q := load_aligned_selected env rest
    (p.1 ++ q.1, p.2 ++ q.2)

/-! ## The `src/Dashboard/app.py` variant (station-filtering alignment) -/

/-- `df[df["station"].isin(selected_stations)]`. -/
def stationFilter (stations : List String) (df : List RawRow) : List RawRow :=
  df.filter (fun r => stations.contains r.station)

/-- One iteration of the loop in `load_aligned_selected` of
`src/Dashboard/app.py` (lines 114–148): station filter first, then the
coarse window, the skip on an empty frame, the tight hours filter, the
10-minute resample, and the identifier/color tagging.
Modelled from the spec for its collaborators: `load_eruption_file`
(module `data_loader`) and the `eruptions`/`color_map` tables (module
`constants`) are not among the sources, so they are abstracted as the
parameters `envD` (the loaded per-minute table), `timeOf` (the eruption
instant) and `colorOf` (the display color). -/
def processOneD (timeOf : String → Int) (colorOf : String → String)
    (envD : String → List RawRow) (stations : List String) (name : String) :
    List (AlignedRow String) :=
  let dfs := stationFilter stations (envD name)
  let E := timeOf name
  let df1 := windowFilter E dfs
  if df1 = [] then []
  else resample10 E name (colorOf name) (hoursFilter E df1)

/-- `load_aligned_selected` of `src/Dashboard/app.py`: concatenation of the
per-eruption frames in selection order (this variant shows no warnings in
the loop; empty eruptions are skipped silently by `continue`). -/
def load_aligned_selectedD (timeOf : String → Int) (colorOf : String → String)
    (envD : String → List RawRow) (stations : List String)
    (sel : List String) : List (AlignedRow String) :=
  (sel.map (processOneD timeOf colorOf envD stations)).flatten

/-! ## The spectrogram step (`src/dashboard_v2/app.py` lines 388–469) -/

/-- The spectrogram input filter: rows of the selected station inside the
fixed window `[eruption − 48h, eruption + 12h]` (lines 394–398). -/
def spectroFilter (dfRaw : List RawRow) (sta : String) (E : Int) :
    List RawRow :=
  dfRaw.filter (fun r =>
    decide (r.station = sta) && decide (E - 48 * 3600 ≤ r.time_min)
      && decide (r.time_min ≤ E + 12 * 3600))

/-- pandas `fillna(method='ffill')` on a single column: each NaN takes the
last preceding non-NaN value (leading NaNs stay NaN). -/
def ffillGo : Option ℚ → List (Option ℚ) → List (Option ℚ)
  | _, [] => []
  | last, none :: rest => last :: ffillGo last rest
  | _, some v :: rest => some v :: ffillGo (some v) rest

/-- The spectrogram section: filter to the station and the `[−48h, +12h]`
window, report "not enough data" when fewer than 100 samples remain
(`len(df) < 100`, line 400), otherwise hand the forward-filled amplitude
series to the signal pipeline.  The payload models the prepared series
(`df["amplitude_mean"].fillna(method='ffill')`); the subsequent
de-trending, FFT and decibel stages consume it and are irrational-valued,
so they are not embedded — the claims here concern only the guard. -/
def spectrogramStep (dfRaw : List RawRow) (sta : String) (eid : EruptionId) :
    Except String (List (Option ℚ)) :=
  let E := eruptionTime eid
  let df := spectroFilter dfRaw sta E
  if df.length < 100 then
    Except.error "Not enough data points for spectrogram. Try another station or eruption."
  else
    Except.ok (ffillGo none (df.map (fun r => r.amplitude_mean)))

/-! ## The single-file dashboard (`src/app.py`) -/

/-- One row of the single-file dashboard's CSVs: timestamp, station,
`amplitude_std`, plus the `eruption_date` tag column the loader adds. -/
structure RowS where
  time_min : Int
  station : String
  amplitude_std : Option ℚ
  eruption_date : String
  deriving Repr, DecidableEq

/-- `load_data(d)` of `src/app.py`: read the CSV of eruption date `d`
(abstracted as `envS d`) and set `df["eruption_date"] = d`. -/
def load_dataS (envS : String → List RowS) (d : String) : List RowS :=
  (envS d).map (fun r => { r with eruption_date := d })

/-- `pd.concat([load_data(d) for d in selected_eruptions])` (line 62);
an empty selection gives the empty frame. -/
def concatSelected (envS : String → List RowS) (sel : List String) :
    List RowS :=
  (sel.map (load_dataS envS)).flatten

/-- pandas `Series.max()` with `skipna`: NaN (`none`) when no non-NaN
value exists. -/
def maxSkipna : List ℚ → Option ℚ
  | [] => none
  | x :: xs => some (xs.foldl max x)

/-- `max_std = df["amplitude_std"].max() if not df.empty else 0`
(line 72 of `src/app.py`) — computed from the full loaded frame `df`,
not from the station-filtered frame. -/
def max_stdS (df : List RowS) : Option ℚ :=
  if df = [] then some 0 else maxSkipna (df.filterMap (fun r => r.amplitude_std))

/-- The state `src/app.py` computes from the operator's selections: the
station-filtered frame `df_filtered` (line 69) and the displayed risk
triple (lines 72–83).  The risk triple reads `df`, which depends only on
the eruption selection; the station selection reaches only `df_filtered`. -/
def dashboardS (envS : String → List RowS) (sel : List String)
    (stations : List String) : List RowS × (String × String × String) :=
  let df := concatSelected envS sel
  let df_filtered :=
    if stations = [] then [] else df.filter (fun r => stations.contains r.station)
  (df_filtered, riskTriple (max_stdS df))

/-! ## Station relabeling (for the station-identity claim) -/

/-- Change only the `station` cell of a row, leaving the timestamp and all
numeric columns intact. -/
def relabelStation (g : String → String) (r : RawRow) : RawRow :=
  { r with station := g r.station }

/-! ## The spec's midpoint reading of the recompute step -/

/-- Modelled from the spec: "Recompute hours-to-eruption for the bucket
midpoints from the eruption instant" (§4.1 step 6).  The midpoint of the
10-minute bucket `[label, label + 600)` is `label + 300`; this definition
follows the spec's words and is compared against the code's recompute,
which uses the bucket's left edge `label` itself. -/
def midpointHours (E label : Int) : ℚ := hoursTo E (label + 300)

/-! ## Concrete inputs used by counterexamples and witnesses -/

/-- One-eruption environment: a single sample exactly 80 hours before the
2016-09-11 04:05 UTC eruption (timestamp 1473278700 = 1473566700 − 288000).
Because 1473566700 mod 600 = 300, this sample's 10-minute bucket starts
300 seconds earlier, at 1473278400. -/
def envC1 : EruptionId → Option (List RawRow)
  | .e2016sep11 => some [⟨1473278700, "BON", some 1, some 1⟩]
  | _ => none

/-- The single aligned row `load_aligned_selected envC1 [e2016sep11]`
produces: bucket label 1473278400, hours-to-eruption −961/12 ≈ −80.083. -/
def rowC1 : AlignedRow EruptionId :=
  ⟨1473278400, some 1, some 1, -961/12, .e2016sep11, "#f58231"⟩

/-- One-eruption environment: a single sample exactly at the
2020-12-07 00:40 UTC eruption instant (1607301600, a multiple of 600). -/
def envC2 : EruptionId → Option (List RawRow)
  | .e2020dec07 => some [⟨1607301600, "BON", some 3, some 5⟩]
  | _ => none

/-- The single aligned row of `load_aligned_selected envC2 [e2020dec07]`:
bucket label 1607301600 (the left edge), hours-to-eruption 0. -/
def rowC2 : AlignedRow EruptionId :=
  ⟨1607301600, some 3, some 5, 0, .e2020dec07, "#42d4f4"⟩

/-- Environment for the isolation claim: the 2020 eruption has data, the
2016 eruption's backing file is missing. -/
def envC6 : EruptionId → Option (List RawRow)
  | .e2020dec07 => some [⟨1607301600, "BON", some 3, some 5⟩]
  | _ => none

/-- Two-row environment for the spacing/monotonicity claim: samples at the
2020-12-07 eruption instant and 600 seconds later, giving two aligned
rows 600 seconds apart. -/
def envC8 : EruptionId → Option (List RawRow)
  | .e2020dec07 => some [⟨1607301600, "BON", some 3, some 5⟩,
                         ⟨1607302200, "SNE", some 7, some 9⟩]
  | _ => none

/-- First aligned row of `processOne envC8 e2020dec07`. -/
def rowC8a : AlignedRow EruptionId :=
  ⟨1607301600, some 3, some 5, 0, .e2020dec07, "#42d4f4"⟩

/-- Second aligned row of `processOne envC8 e2020dec07`, 600 s later. -/
def rowC8b : AlignedRow EruptionId :=
  ⟨1607302200, some 7, some 9, 1/6, .e2020dec07, "#42d4f4"⟩

/-! # Theorems -/

/-! ## Classifier lemmas -/

theorem severity_alertTriple_eq_rank (x : Option ℚ) :
    severity (alertTriple x).1 = alertRank x := by
  unfold alertTriple alertRank
  split_ifs <;> rfl

theorem alertRank_mono {x y : ℚ} (h : x ≤ y) :
    alertRank (some x) ≤ alertRank (some y) := by
  unfold alertRank
  simp only [gtq, decide_eq_true_eq]
  split_ifs <;> (try norm_num) <;> exfalso <;> linarith

/-- C3: the risk-level classifier is monotonic non-decreasing in severity
as the input scalar increases; input 6000 lands in the "ERUPTION" tier and
inputs 0 and NaN land in the lowest ("NORMAL") tier.  At input 2000 the
classifier returns the "HIGH (<12h)" tier (2000 exceeds the 1500
threshold), not the "ELEVATED (<48h)" tier the claim names. -/
theorem risk_classifier_monotone_boundaries :
    (∀ x y : ℚ, x ≤ y →
      severity (alertTriple (some x)).1 ≤ severity (alertTriple (some y)).1)
    ∧ (alertTriple (some 2000)).1 = "HIGH (<12h)"
    ∧ (alertTriple (some 6000)).1 = "ERUPTION"
    ∧ (alertTriple (some 0)).1 = "NORMAL"
    ∧ (alertTriple none).1 = "NORMAL" := by
  refine ⟨fun x y h => ?_, by decide, by decide, by decide, by decide⟩
  rw [severity_alertTriple_eq_rank, severity_alertTriple_eq_rank]
  exact alertRank_mono h

/-- Witness for C3: the monotonicity part applied at the concrete
inputs 1000 ≤ 2000. -/
theorem risk_classifier_monotone_boundaries_witness :
    severity (alertTriple (some 1000)).1 ≤ severity (alertTriple (some 2000)).1 :=
  risk_classifier_monotone_boundaries.1 1000 2000 (by norm_num)

/-- Counterexample for C3 as stated: at input 2000 the classifier of
`src/dashboard_v2/app.py` returns the "HIGH (<12h)" tier, not the
"ELEVATED (<48h)" tier (2000 > 1500, the HIGH threshold). -/
theorem risk_classifier_2000_is_high_not_elevated :
    (alertTriple (some 2000)).1 = "HIGH (<12h)"
    ∧ (alertTriple (some 2000)).1 ≠ "ELEVATED (<48h)" := by
  decide

/-- C4 (amended): both threshold chains use strict greater-than in
descending order, so an input exactly equal to a threshold value falls
through that test and is assigned the LOWER-severity tier of the two tiers
meeting at the boundary — shown at all four boundaries of each chain. -/
theorem threshold_ties_take_lower_tier :
    (alertTriple (some 800)).1 = "NORMAL"
    ∧ (alertTriple (some 1500)).1 = "ELEVATED (<48h)"
    ∧ (alertTriple (some 3000)).1 = "HIGH (<12h)"
    ∧ (alertTriple (some 5000)).1 = "IMMINENT (<1h)"
    ∧ (riskTriple (some 3000)).1 = "Pas de risque"
    ∧ (riskTriple (some 10000)).1 = "Risque < 24h"
    ∧ (riskTriple (some 30000)).1 = "Risque < 12h"
    ∧ (riskTriple (some 100000)).1 = "Risque < 1h" := by
  decide

/-- Counterexample for C4 as stated: at the 800 boundary (where the
"NORMAL" and "ELEVATED (<48h)" tiers meet) the classifier returns
"NORMAL", the lower-severity tier, not the higher one. -/
theorem threshold_tie_800_takes_normal :
    (alertTriple (some 800)).1 = "NORMAL"
    ∧ (alertTriple (some 800)).1 ≠ "ELEVATED (<48h)"
    ∧ severity "NORMAL" < severity "ELEVATED (<48h)" := by
  decide

/-! ## Fold lemmas for the datetime-index minimum and maximum -/

theorem foldl_min_le_init (rs : List RawRow) (a : Int) :
    rs.foldl (fun m x => min m x.time_min) a ≤ a := by
  induction rs generalizing a with
  | nil => exact le_refl a
  | cons x xs ih => exact le_trans (ih (min a x.time_min)) (min_le_left _ _)

theorem foldl_min_le_mem (rs : List RawRow) (a : Int) (r : RawRow)
    (hr : r ∈ rs) : rs.foldl (fun m x => min m x.time_min) a ≤ r.time_min := by
  induction rs generalizing a with
  | nil => cases hr
  | cons x xs ih =>
    rcases List.mem_cons.mp hr with h | h
    · subst h
      exact le_trans (foldl_min_le_init xs (min a r.time_min)) (min_le_right _ _)
    · exact ih (min a x.time_min) h

theorem foldl_min_mem (rs : List RawRow) (a : Int) :
    rs.foldl (fun m x => min m x.time_min) a = a
      ∨ ∃ r ∈ rs, rs.foldl (fun m x => min m x.time_min) a = r.time_min := by
  induction rs generalizing a with
  | nil => exact Or.inl rfl
  | cons x xs ih =>
    rcases ih (min a x.time_min) with h | ⟨r, hr, h⟩
    · rcases min_choice a x.time_min with hm | hm
      · left; rw [List.foldl_cons, h, hm]
      · right; exact ⟨x, List.mem_cons_self x xs, by rw [List.foldl_cons, h, hm]⟩
    · right; exact ⟨r, List.mem_cons_of_mem x hr, h⟩

theorem init_le_foldl_max (rs : List RawRow) (a : Int) :
    a ≤ rs.foldl (fun m x => max m x.time_min) a := by
  induction rs generalizing a with
  | nil => exact le_refl a
  | cons x xs ih => exact le_trans (le_max_left _ _) (ih (max a x.time_min))

theorem mem_le_foldl_max (rs : List RawRow) (a : Int) (r : RawRow)
    (hr : r ∈ rs) : r.time_min ≤ rs.foldl (fun m x => max m x.time_min) a := by
  induction rs generalizing a with
  | nil => cases hr
  | cons x xs ih =>
    rcases List.mem_cons.mp hr with h | h
    · subst h
      exact le_trans (le_max_right _ _) (init_le_foldl_max xs (max a r.time_min))
    · exact ih (max a x.time_min) h

theorem foldl_max_mem (rs : List RawRow) (a : Int) :
    rs.foldl (fun m x => max m x.time_min) a = a
      ∨ ∃ r ∈ rs, rs.foldl (fun m x => max m x.time_min) a = r.time_min := by
  induction rs generalizing a with
  | nil => exact Or.inl rfl
  | cons x xs ih =>
    rcases ih (max a x.time_min) with h | ⟨r, hr, h⟩
    · rcases max_choice a x.time_min with hm | hm
      · left; rw [List.foldl_cons, h, hm]
      · right; exact ⟨x, List.mem_cons_self x xs, by rw [List.foldl_cons, h, hm]⟩
    · right; exact ⟨r, List.mem_cons_of_mem x hr, h⟩

/-- The minimum of the datetime index is one of the row timestamps. -/
theorem minTimeList_mem {df : List RawRow} {mn : Int}
    (h : minTimeList df = some mn) : ∃ r ∈ df, r.time_min = mn := by
  cases df with
  | nil => cases h
  | cons r rs =>
    simp only [minTimeList, Option.some.injEq] at h
    rcases foldl_min_mem rs r.time_min with he | ⟨s, hs, he⟩
    · exact ⟨r, List.mem_cons_self r rs, by rw [← h, he]⟩
    · exact ⟨s, List.mem_cons_of_mem r hs, by rw [← h, he]⟩

/-- The minimum of the datetime index bounds every row timestamp below. -/
theorem minTimeList_le {df : List RawRow} {mn : Int}
    (h : minTimeList df = some mn) : ∀ r ∈ df, mn ≤ r.time_min := by
  cases df with
  | nil => cases h
  | cons r rs =>
    simp only [minTimeList, Option.some.injEq] at h
    intro s hs
    rcases List.mem_cons.mp hs with hh | hh
    · subst hh; rw [← h]; exact foldl_min_le_init rs s.time_min
    · rw [← h]; exact foldl_min_le_mem rs r.time_min s hh

/-- The maximum of the datetime index is one of the row timestamps. -/
theorem maxTimeList_mem {df : List RawRow} {mx : Int}
    (h : maxTimeList df = some mx) : ∃ r ∈ df, r.time_min = mx := by
  cases df with
  | nil => cases h
  | cons r rs =>
    simp only [maxTimeList, Option.some.injEq] at h
    rcases foldl_max_mem rs r.time_min with he | ⟨s, hs, he⟩
    · exact ⟨r, List.mem_cons_self r rs, by rw [← h, he]⟩
    · exact ⟨s, List.mem_cons_of_mem r hs, by rw [← h, he]⟩

/-- The maximum of the datetime index bounds every row timestamp above. -/
theorem maxTimeList_ge {df : List RawRow} {mx : Int}
    (h : maxTimeList df = some mx) : ∀ r ∈ df, r.time_min ≤ mx := by
  cases df with
  | nil => cases h
  | cons r rs =>
    simp only [maxTimeList, Option.some.injEq] at h
    intro s hs
    rcases List.mem_cons.mp hs with hh | hh
    · subst hh; rw [← h]; exact init_le_foldl_max rs s.time_min
    · rw [← h]; exact mem_le_foldl_max rs r.time_min s hh

/-! ## Structure of the alignment output -/

/-- Every timestamp surviving the tight hours filter lies within
`[E − 288000, E + 86400]` seconds of the eruption instant. -/
theorem hoursFilter_time_bounds {E : Int} {df : List RawRow} {r : RawRow}
    (h : r ∈ hoursFilter E df) :
    E - 288000 ≤ r.time_min ∧ r.time_min ≤ E + 86400 := by
  unfold hoursFilter at h
  rw [List.mem_filter] at h
  obtain ⟨-, hb⟩ := h
  rw [Bool.and_eq_true, decide_eq_true_eq, decide_eq_true_eq] at hb
  obtain ⟨h1, h2⟩ := hb
  unfold hoursTo at h1 h2
  constructor
  · have h1q : (-80 : ℚ) * 3600 ≤ ((r.time_min - E : Int) : ℚ) :=
      (le_div_iff₀ (by norm_num)).mp h1
    have h1z : (-288000 : Int) ≤ r.time_min - E := by
      exact_mod_cast (by linarith : (-288000 : ℚ) ≤ ((r.time_min - E : Int) : ℚ))
    omega
  · have h2q : ((r.time_min - E : Int) : ℚ) ≤ 24 * 3600 :=
      (div_le_iff₀ (by norm_num)).mp h2
    have h2z : r.time_min - E ≤ (86400 : Int) := by
      exact_mod_cast (by linarith : ((r.time_min - E : Int) : ℚ) ≤ 86400)
    omega

/-- Every resample label lies between the first and the last occupied
bucket. -/
theorem resampleLabels_bounds {b0 b1 l : Int}
    (h0 : b0 % 600 = 0) (h1 : b1 % 600 = 0) (hle : b0 ≤ b1)
    (hl : l ∈ resampleLabels b0 b1) : b0 ≤ l ∧ l ≤ b1 := by
  unfold resampleLabels at hl
  obtain ⟨i, hir, heq⟩ := List.mem_map.mp hl
  have hi := List.mem_range.mp hir
  omega

/-- Every resample label is itself a bucket left edge (a multiple of 600
seconds) when the first label is. -/
theorem resampleLabels_mod {b0 b1 l : Int}
    (h0 : b0 % 600 = 0) (hl : l ∈ resampleLabels b0 b1) : l % 600 = 0 := by
  unfold resampleLabels at hl
  obtain ⟨i, hir, heq⟩ := List.mem_map.mp hl
  omega

/-- Every row of the combined table comes from the per-eruption frame of
some selected eruption. -/
theorem mem_load_aligned {env : EruptionId → Option (List RawRow)}
    {sel : List EruptionId} {row : AlignedRow EruptionId}
    (h : row ∈ (load_aligned_selected env sel).1) :
    ∃ name ∈ sel, row ∈ (processOne env name).1 := by
  induction sel with
  | nil => cases h
  | cons a rest ih =>
    simp only [load_aligned_selected] at h
    rw [List.mem_append] at h
    rcases h with h | h
    · exact ⟨a, List.mem_cons_self a rest, h⟩
    · obtain ⟨n, hn, hr⟩ := ih h
      exact ⟨n, List.mem_cons_of_mem a hn, hr⟩

/-- Anatomy of a row of one eruption's per-eruption frame: it is the
resampled row of some label of the occupied-bucket range of the
hours-filtered data, whose rows all lie in the tight window. -/
theorem processOne_mem_elim {env : EruptionId → Option (List RawRow)}
    {name : EruptionId} {row : AlignedRow EruptionId}
    (h : row ∈ (processOne env name).1) :
    ∃ df mn mx,
      minTimeList df = some mn ∧ maxTimeList df = some mx ∧
      (∀ r ∈ df, eruptionTime name - 288000 ≤ r.time_min ∧
        r.time_min ≤ eruptionTime name + 86400) ∧
      ∃ label,
        label ∈ resampleLabels (bucketStart mn) (bucketStart mx) ∧
        row = { time_min := label
                amplitude_mean := bucketMean df label (fun r => r.amplitude_mean)
                amplitude_std := bucketMean df label (fun r => r.amplitude_std)
                hours_to_eruption := hoursTo (eruptionTime name) label
                eruption := name
                color := color_map name } := by
  unfold processOne at h
  cases henv : env name with
  | none => rw [henv] at h; cases h
  | some df0 =>
    rw [henv] at h
    dsimp only at h
    by_cases hw : windowFilter (eruptionTime name) df0 = []
    · rw [if_pos hw] at h; cases h
    · rw [if_neg hw] at h
      refine ⟨hoursFilter (eruptionTime name) (windowFilter (eruptionTime name) df0),
        ?_⟩
      unfold resample10 at h
      cases hmn : minTimeList (hoursFilter (eruptionTime name) (windowFilter (eruptionTime name) df0)) with
      | none =>
        rw [hmn] at h
        cases hmx : maxTimeList (hoursFilter (eruptionTime name) (windowFilter (eruptionTime name) df0)) with
        | none => rw [hmx] at h; cases h
        | some mx => rw [hmx] at h; cases h
      | some mn =>
        rw [hmn] at h
        cases hmx : maxTimeList (hoursFilter (eruptionTime name) (windowFilter (eruptionTime name) df0)) with
        | none => rw [hmx] at h; cases h
        | some mx =>
          rw [hmx] at h
          rw [List.mem_map] at h
          obtain ⟨label, hlab, hrow⟩ := h
          exact ⟨mn, mx, rfl, rfl,
            fun r hr => hoursFilter_time_bounds hr, label, hlab, hrow.symm⟩

/-- C1 (amended): after 10-minute resampling, every row of the combined
aligned table has `hours_to_eruption` strictly above −80 − 1/6 = −481/6
and at most +24.  (The lower edge is −80 minus up to one bucket width:
the first bucket's left edge can precede the earliest in-window sample by
up to 599 seconds, so exactly −80 is NOT a lower bound — see the
counterexample — but −481/6 is.) -/
theorem aligned_hours_window (env : EruptionId → Option (List RawRow))
    (sel : List EruptionId) (row : AlignedRow EruptionId)
    (h : row ∈ (load_aligned_selected env sel).1) :
    -481/6 < row.hours_to_eruption ∧ row.hours_to_eruption ≤ 24 := by
  obtain ⟨name, -, hrow⟩ := mem_load_aligned h
  obtain ⟨df, mn, mx, hmn, hmx, hbounds, label, hlab, hroweq⟩ :=
    processOne_mem_elim hrow
  obtain ⟨rn, hrn, hrneq⟩ := minTimeList_mem hmn
  obtain ⟨rx, hrx, hrxeq⟩ := maxTimeList_mem hmx
  have hmnb := hbounds rn hrn
  have hmxb := hbounds rx hrx
  have hmnmx : mn ≤ mx := by
    have hle := minTimeList_le hmn rx hrx
    omega
  have hb0 : bucketStart mn % 600 = 0 := by unfold bucketStart; omega
  have hb1 : bucketStart mx % 600 = 0 := by unfold bucketStart; omega
  have hbb : bucketStart mn ≤ bucketStart mx := by unfold bucketStart; omega
  obtain ⟨hl1, hl2⟩ := resampleLabels_bounds hb0 hb1 hbb hlab
  have hlo : -288600 < label - eruptionTime name := by
    unfold bucketStart at hl1; omega
  have hhi : label - eruptionTime name ≤ 86400 := by
    unfold bucketStart at hl2; omega
  subst hroweq
  constructor
  · show (-481/6 : ℚ) < hoursTo (eruptionTime name) label
    unfold hoursTo
    rw [show (-481/6 : ℚ) = -288600 / 3600 by norm_num]
    exact (div_lt_div_iff_of_pos_right (by norm_num : (0:ℚ) < 3600)).mpr
      (by exact_mod_cast hlo)
  · show hoursTo (eruptionTime name) label ≤ 24
    unfold hoursTo
    rw [show (24 : ℚ) = 86400 / 3600 by norm_num]
    exact (div_le_div_iff_of_pos_right (by norm_num : (0:ℚ) < 3600)).mpr
      (by exact_mod_cast hhi)

/-- Witness for C1's amended theorem, at the concrete environment whose
single sample sits exactly 80 hours before the 2016-09-11 eruption. -/
theorem envC1_eval :
    (load_aligned_selected envC1 [.e2016sep11]).1 = [rowC1] := by
  norm_num [load_aligned_selected, processOne, envC1, windowFilter, hoursFilter,
    resample10, minTimeList, maxTimeList, resampleLabels, bucketMean, listMean,
    bucketStart, hoursTo, eruptionTime, color_map, rowC1,
    List.filter_cons, List.filter_nil, List.filterMap_cons, List.filterMap_nil,
    List.range_succ, List.range_zero]

theorem aligned_hours_window_witness :
    -481/6 < rowC1.hours_to_eruption ∧ rowC1.hours_to_eruption ≤ 24 :=
  aligned_hours_window envC1 [.e2016sep11] rowC1
    (by rw [envC1_eval]; exact List.mem_singleton.mpr rfl)

/-- Counterexample for C1 as stated: with a sample exactly 80 hours before
the 2016-09-11 04:05 UTC eruption (whose instant is not a multiple of 10
minutes), the resampled row's recomputed `hours_to_eruption` is −961/12,
strictly below −80: the claimed interval [−80, +24] does not contain every
output row. -/
theorem aligned_hours_below_neg80 :
    ((load_aligned_selected envC1 [.e2016sep11]).1.map
        (fun r => r.hours_to_eruption) = [-961/12])
    ∧ ¬ ((-80 : ℚ) ≤ -961/12) := by
  refine ⟨?_, by norm_num⟩
  rw [envC1_eval]
  norm_num [rowC1]

/-- C2 (amended): the alignment routine recomputes `hours_to_eruption` of
every output row from the row's own resampled timestamp — the 10-minute
bucket's LEFT EDGE (a multiple of 600 seconds) — relative to the eruption
instant, not from the bucket midpoint. -/
theorem aligned_hours_recomputed_from_left_edge
    (env : EruptionId → Option (List RawRow)) (name : EruptionId)
    (row : AlignedRow EruptionId) (h : row ∈ (processOne env name).1) :
    row.hours_to_eruption = hoursTo (eruptionTime name) row.time_min
    ∧ row.time_min % 600 = 0 := by
  obtain ⟨df, mn, mx, hmn, -, -, label, hlab, hroweq⟩ := processOne_mem_elim h
  have hb0 : bucketStart mn % 600 = 0 := by unfold bucketStart; omega
  have h600 := resampleLabels_mod hb0 hlab
  subst hroweq
  exact ⟨rfl, h600⟩

theorem envC2_eval :
    (processOne envC2 .e2020dec07).1 = [rowC2] := by
  norm_num [processOne, envC2, windowFilter, hoursFilter,
    resample10, minTimeList, maxTimeList, resampleLabels, bucketMean, listMean,
    bucketStart, hoursTo, eruptionTime, color_map, rowC2,
    List.filter_cons, List.filter_nil, List.filterMap_cons, List.filterMap_nil,
    List.range_succ, List.range_zero]

/-- Witness for C2's amended theorem at a concrete one-row environment. -/
theorem aligned_hours_recomputed_from_left_edge_witness :
    rowC2.hours_to_eruption = hoursTo (eruptionTime .e2020dec07) rowC2.time_min
    ∧ rowC2.time_min % 600 = 0 :=
  aligned_hours_recomputed_from_left_edge envC2 .e2020dec07 rowC2
    (by rw [envC2_eval]; exact List.mem_singleton.mpr rfl)

/-- Counterexample for C2 as stated: for a sample exactly at the
2020-12-07 00:40 UTC eruption instant, the code's recomputed value is 0
(the bucket's left edge is the instant itself), while recomputing from the
bucket midpoint — what the claim describes — would give 1/12 hours. -/
theorem aligned_hours_not_midpoint :
    ((load_aligned_selected envC2 [.e2020dec07]).1.map
        (fun r => r.hours_to_eruption) = [0])
    ∧ ((load_aligned_selected envC2 [.e2020dec07]).1.map
        (fun r => midpointHours (eruptionTime .e2020dec07) r.time_min) = [1/12])
    ∧ ((0 : ℚ) ≠ 1/12) := by
  have hload : (load_aligned_selected envC2 [.e2020dec07]).1 = [rowC2] := by
    simp [load_aligned_selected, envC2_eval]
  rw [hload]
  refine ⟨by norm_num [rowC2], by norm_num [rowC2, midpointHours, hoursTo, eruptionTime], by norm_num⟩

/-! ## The spectrogram guard -/

/-- C5: whenever the station/window filter leaves fewer than 100 samples,
the spectrogram step reports the "not enough data" error and produces no
heatmap payload (and, being a total function, it cannot crash). -/
theorem spectrogram_guard (dfRaw : List RawRow) (sta : String) (eid : EruptionId)
    (h : (spectroFilter dfRaw sta (eruptionTime eid)).length < 100) :
    spectrogramStep dfRaw sta eid
      = Except.error "Not enough data points for spectrogram. Try another station or eruption."
    ∧ ∀ payload : List (Option ℚ), spectrogramStep dfRaw sta eid ≠ Except.ok payload := by
  have he : spectrogramStep dfRaw sta eid
      = Except.error "Not enough data points for spectrogram. Try another station or eruption." := by
    unfold spectrogramStep
    exact if_pos h
  exact ⟨he, fun payload hok => by rw [he] at hok; cases hok⟩

/-- Witness for C5 at a concrete input: the empty frame (0 < 100 samples)
for any station/eruption choice. -/
theorem spectrogram_guard_witness :
    spectrogramStep [] "BOR" .e2015aug24
      = Except.error "Not enough data points for spectrogram. Try another station or eruption."
    ∧ ∀ payload : List (Option ℚ), spectrogramStep [] "BOR" .e2015aug24 ≠ Except.ok payload :=
  spectrogram_guard [] "BOR" .e2015aug24 (by decide)

/-! ## Isolation of a missing eruption file -/

theorem load_aligned_append (env : EruptionId → Option (List RawRow))
    (a b : List EruptionId) :
    load_aligned_selected env (a ++ b)
      = ((load_aligned_selected env a).1 ++ (load_aligned_selected env b).1,
         (load_aligned_selected env a).2 ++ (load_aligned_selected env b).2) := by
  induction a with
  | nil => simp [load_aligned_selected]
  | cons x xs ih => simp [load_aligned_selected, ih]

/-- C6: an eruption whose backing file is missing contributes no rows: the
combined table for a selection containing it equals the combined table for
the selection with it removed, and the "File not found" warning is shown.
The remaining eruptions are thus processed exactly as if the missing one
had been dropped from the list. -/
theorem isolation_missing_file (env : EruptionId → Option (List RawRow))
    (l1 l2 : List EruptionId) (e : EruptionId) (he : env e = none) :
    (load_aligned_selected env (l1 ++ e :: l2)).1
      = (load_aligned_selected env (l1 ++ l2)).1
    ∧ ("File not found: " ++ eruptionFile e)
        ∈ (load_aligned_selected env (l1 ++ e :: l2)).2 := by
  have hp : processOne env e = ([], ["File not found: " ++ eruptionFile e]) := by
    unfold processOne; rw [he]
  constructor
  · rw [load_aligned_append env l1 (e :: l2), load_aligned_append env l1 l2]
    simp [load_aligned_selected, hp]
  · rw [load_aligned_append env l1 (e :: l2)]
    simp [load_aligned_selected, hp]

/-- Witness for C6: the concrete environment where the 2016 eruption's
file is missing and the 2020 eruption has data. -/
theorem isolation_missing_file_witness :
    (load_aligned_selected envC6 ([.e2020dec07] ++ .e2016sep11 :: [])).1
      = (load_aligned_selected envC6 ([.e2020dec07] ++ [])).1
    ∧ ("File not found: " ++ eruptionFile .e2016sep11)
        ∈ (load_aligned_selected envC6 ([.e2020dec07] ++ .e2016sep11 :: [])).2 :=
  isolation_missing_file envC6 [.e2020dec07] [] .e2016sep11 rfl

/-! ## Station filtering order in the `Dashboard` variant -/

theorem stationFilter_nil_stations (df : List RawRow) : stationFilter [] df = [] := by
  unfold stationFilter
  induction df with
  | nil => rfl
  | cons r rs ih => simp [List.filter_cons, ih]

theorem processOneD_nil_stations (timeOf : String → Int) (colorOf : String → String)
    (envD : String → List RawRow) (n : String) :
    processOneD timeOf colorOf envD [] n = [] := by
  unfold processOneD
  rw [stationFilter_nil_stations]
  rfl

/-- C7: in the `Dashboard` variant, the station filter is applied to the
loaded table before the time-window filter and before resampling: the
per-eruption output depends on the loaded data only through its
station-filtered rows, and with the empty station selection every eruption
yields the empty per-eruption result, so the combined result is empty. -/
theorem station_filter_first (timeOf : String → Int) (colorOf : String → String) :
    (∀ env env' : String → List RawRow, ∀ sel stations : List String,
      (∀ n ∈ sel, stationFilter stations (env n) = stationFilter stations (env' n)) →
        load_aligned_selectedD timeOf colorOf env stations sel
          = load_aligned_selectedD timeOf colorOf env' stations sel)
    ∧ (∀ env : String → List RawRow, ∀ sel : List String,
        load_aligned_selectedD timeOf colorOf env [] sel = []) := by
  constructor
  · intro env env' sel stations hagree
    unfold load_aligned_selectedD
    refine congrArg List.flatten (List.map_congr_left ?_)
    intro n hn
    unfold processOneD
    rw [hagree n hn]
  · intro env sel
    unfold load_aligned_selectedD
    induction sel with
    | nil => rfl
    | cons a rest ih =>
      simp only [List.map_cons, List.flatten_cons, processOneD_nil_stations,
        List.nil_append]
      exact ih

/-- Witness for C7: concrete parameter tables and environment; the empty
station selection yields the empty combined table. -/
theorem station_filter_first_witness :
    load_aligned_selectedD (fun _ => 0) (fun _ => "#e6194B")
      (fun _ => [⟨0, "BON", some 1, some 1⟩]) [] ["E1"] = [] :=
  (station_filter_first (fun _ => 0) (fun _ => "#e6194B")).2
    (fun _ => [⟨0, "BON", some 1, some 1⟩]) ["E1"]

/-! ## Risk level ignores the station selection (`src/app.py`) -/

/-- C9: in the single-file dashboard, the displayed risk triple is computed
from the maximum `amplitude_std` of the full loaded frame of the selected
eruptions; the station selection reaches only the filtered frame, so two
runs differing only in station selection display the same risk tier. -/
theorem risk_ignores_station_selection (envS : String → List RowS)
    (sel : List String) (s1 s2 : List String) :
    (dashboardS envS sel s1).2 = (dashboardS envS sel s2).2 := rfl

/-! ## Spacing and monotonicity of one eruption's segment -/

theorem processOne_shape (env : EruptionId → Option (List RawRow)) (name : EruptionId) :
    (processOne env name).1 = [] ∨
    ∃ df, (processOne env name).1
        = resample10 (eruptionTime name) name (color_map name) df := by
  unfold processOne
  cases henv : env name with
  | none => left; rfl
  | some df0 =>
    dsimp only
    by_cases hw : windowFilter (eruptionTime name) df0 = []
    · rw [if_pos hw]; left; rfl
    · rw [if_neg hw]; right; exact ⟨_, rfl⟩

theorem resample10_shape (E : Int) (name : EruptionId) (col : String)
    (df : List RawRow) :
    resample10 E name col df = [] ∨
    ∃ (b0 : Int) (N : ℕ) (am as : Int → Option ℚ),
      resample10 E name col df = (List.range N).map (fun i : Nat =>
        { time_min := b0 + 600 * (i : Int)
          amplitude_mean := am (b0 + 600 * (i : Int))
          amplitude_std := as (b0 + 600 * (i : Int))
          hours_to_eruption := hoursTo E (b0 + 600 * (i : Int))
          eruption := name
          color := col }) := by
  unfold resample10
  cases hmn : minTimeList df with
  | none =>
    cases hmx : maxTimeList df with
    | none => left; rfl
    | some mx => left; rfl
  | some mn =>
    cases hmx : maxTimeList df with
    | none => left; rfl
    | some mx =>
      right
      refine ⟨bucketStart mn, ((bucketStart mx - bucketStart mn) / 600).toNat + 1,
        fun t => bucketMean df t (fun r => r.amplitude_mean),
        fun t => bucketMean df t (fun r => r.amplitude_std), ?_⟩
      dsimp only
      unfold resampleLabels
      rw [List.map_map]
      rfl

/-- C8: within one eruption's per-eruption segment of the combined table,
consecutive resampled timestamps are exactly 600 seconds apart (so the
timestamps are strictly increasing at fixed 10-minute spacing), and
`hours_to_eruption` is monotone non-decreasing in the row position. -/
theorem aligned_segment_spacing (env : EruptionId → Option (List RawRow))
    (name : EruptionId) :
    (∀ i : ℕ, i + 1 < (processOne env name).1.length →
      (((processOne env name).1.getD (i+1) default).time_min
        = ((processOne env name).1.getD i default).time_min + 600))
    ∧ (∀ i j : ℕ, j < (processOne env name).1.length → i ≤ j →
      (((processOne env name).1.getD i default).hours_to_eruption
        ≤ ((processOne env name).1.getD j default).hours_to_eruption)) := by
  have key : (processOne env name).1 = [] ∨
      ∃ (b0 : Int) (N : ℕ) (am as : Int → Option ℚ),
        (processOne env name).1 = (List.range N).map (fun i : Nat =>
          { time_min := b0 + 600 * (i : Int)
            amplitude_mean := am (b0 + 600 * (i : Int))
            amplitude_std := as (b0 + 600 * (i : Int))
            hours_to_eruption := hoursTo (eruptionTime name) (b0 + 600 * (i : Int))
            eruption := name
            color := color_map name }) := by
    rcases processOne_shape env name with hnil | ⟨df, hdf⟩
    · exact Or.inl hnil
    · rcases resample10_shape (eruptionTime name) name (color_map name) df with
        hnil | ⟨b0, N, am, as, hmap⟩
      · exact Or.inl (hdf.trans hnil)
      · exact Or.inr ⟨b0, N, am, as, hdf.trans hmap⟩
  rcases key with hnil | ⟨b0, N, am, as, heq⟩
  · constructor
    · intro i hi; rw [hnil] at hi; simp at hi
    · intro i j hj hij; rw [hnil] at hj; simp at hj
  · constructor
    · intro i hi
      rw [heq] at hi ⊢
      rw [List.length_map, List.length_range] at hi
      rw [List.getD_eq_getElem _ _ (by simp; omega),
          List.getD_eq_getElem _ _ (by simp; omega)]
      simp only [List.getElem_map, List.getElem_range]
      push_cast
      ring
    · intro i j hj hij
      rw [heq] at hj ⊢
      rw [List.length_map, List.length_range] at hj
      rw [List.getD_eq_getElem _ _ (by simp; omega),
          List.getD_eq_getElem _ _ (by simp; omega)]
      simp only [List.getElem_map, List.getElem_range]
      unfold hoursTo
      apply (div_le_div_iff_of_pos_right (by norm_num : (0:ℚ) < 3600)).mpr
      have hq : (i : ℚ) ≤ (j : ℚ) := by exact_mod_cast hij
      push_cast
      linarith

theorem envC8_eval :
    (processOne envC8 .e2020dec07).1 = [rowC8a, rowC8b] := by
  norm_num [processOne, envC8, windowFilter, hoursFilter,
    resample10, minTimeList, maxTimeList, resampleLabels, bucketMean, listMean,
    bucketStart, hoursTo, eruptionTime, color_map, rowC8a, rowC8b,
    List.filter_cons, List.filter_nil, List.filterMap_cons, List.filterMap_nil,
    List.range_succ, List.range_zero, min_def, max_def, List.cons_ne_nil]

/-- Witness for C8 at the concrete two-row environment: the two aligned
rows are 600 seconds apart and their hours are non-decreasing. -/
theorem aligned_segment_spacing_witness :
    (0 + 1 < (processOne envC8 .e2020dec07).1.length
      ∧ ((processOne envC8 .e2020dec07).1.getD 1 default).time_min
          = ((processOne envC8 .e2020dec07).1.getD 0 default).time_min + 600)
    ∧ ((processOne envC8 .e2020dec07).1.getD 0 default).hours_to_eruption
        ≤ ((processOne envC8 .e2020dec07).1.getD 1 default).hours_to_eruption :=
  ⟨⟨by rw [envC8_eval]; norm_num,
    (aligned_segment_spacing envC8 .e2020dec07).1 0 (by rw [envC8_eval]; norm_num)⟩,
   (aligned_segment_spacing envC8 .e2020dec07).2 0 1
      (by rw [envC8_eval]; norm_num) (by norm_num)⟩

/-! ## Station identity is discarded by the alignment routine -/

theorem windowFilter_relabel (E : Int) (g : String → String) (df : List RawRow) :
    windowFilter E (df.map (relabelStation g))
      = (windowFilter E df).map (relabelStation g) := by
  unfold windowFilter
  rw [List.filter_map]
  rfl

theorem hoursFilter_relabel (E : Int) (g : String → String) (df : List RawRow) :
    hoursFilter E (df.map (relabelStation g))
      = (hoursFilter E df).map (relabelStation g) := by
  unfold hoursFilter
  rw [List.filter_map]
  rfl

theorem minTimeList_relabel (g : String → String) (df : List RawRow) :
    minTimeList (df.map (relabelStation g)) = minTimeList df := by
  cases df with
  | nil => rfl
  | cons r rs =>
    simp only [List.map_cons, minTimeList]
    rw [List.foldl_map]
    rfl

theorem maxTimeList_relabel (g : String → String) (df : List RawRow) :
    maxTimeList (df.map (relabelStation g)) = maxTimeList df := by
  cases df with
  | nil => rfl
  | cons r rs =>
    simp only [List.map_cons, maxTimeList]
    rw [List.foldl_map]
    rfl

theorem bucketMean_relabel_mean (g : String → String) (df : List RawRow) (label : Int) :
    bucketMean (df.map (relabelStation g)) label (fun r => r.amplitude_mean)
      = bucketMean df label (fun r => r.amplitude_mean) := by
  unfold bucketMean
  rw [List.filter_map, List.filterMap_map]
  rfl

theorem bucketMean_relabel_std (g : String → String) (df : List RawRow) (label : Int) :
    bucketMean (df.map (relabelStation g)) label (fun r => r.amplitude_std)
      = bucketMean df label (fun r => r.amplitude_std) := by
  unfold bucketMean
  rw [List.filter_map, List.filterMap_map]
  rfl

theorem resample10_relabel {ι : Type} (E : Int) (eid : ι) (col : String)
    (g : String → String) (df : List RawRow) :
    resample10 E eid col (df.map (relabelStation g)) = resample10 E eid col df := by
  unfold resample10
  rw [minTimeList_relabel, maxTimeList_relabel]
  cases hmn : minTimeList df with
  | none =>
    cases hmx : maxTimeList df with
    | none => rfl
    | some mx => rfl
  | some mn =>
    cases hmx : maxTimeList df with
    | none => rfl
    | some mx =>
      dsimp only
      apply List.map_congr_left
      intro label hl
      rw [bucketMean_relabel_mean, bucketMean_relabel_std]

theorem processOne_relabel (env : EruptionId → Option (List RawRow))
    (g : String → String) (name : EruptionId) :
    processOne (fun e => (env e).map (List.map (relabelStation g))) name
      = processOne env name := by
  unfold processOne
  dsimp only
  cases henv : env name with
  | none => rfl
  | some df0 =>
    simp only [Option.map_some']
    rw [windowFilter_relabel]
    by_cases hw : windowFilter (eruptionTime name) df0 = []
    · rw [hw]
      rfl
    · rw [if_neg (by simpa [List.map_eq_nil_iff] using hw), if_neg hw,
        hoursFilter_relabel, resample10_relabel]

/-- C10: `resample(...).mean(numeric_only=True)` averages only the numeric
columns, so the aligned output rows carry no station column (the
`AlignedRow` record, read off from the code's output columns, has no
station field): per-row station identity is discarded by the alignment
routine.  Formally, relabeling the stations of the input arbitrarily —
while keeping timestamps and numeric columns — leaves the combined aligned
table unchanged, so any station constraint on the output rows holds only
vacuously. -/
theorem aligned_discards_station_identity (env : EruptionId → Option (List RawRow))
    (g : String → String) (sel : List EruptionId) :
    load_aligned_selected (fun e => (env e).map (List.map (relabelStation g))) sel
      = load_aligned_selected env sel := by
  induction sel with
  | nil => rfl
  | cons a rest ih =>
    simp only [load_aligned_selected]
    rw [processOne_relabel env g a, ih]

end Volcano
